import Mathlib

/-!
Shallow embedding of the job-posting extraction engine of this repository
(backend/url_parser.py and backend/scraper.py), together with proofs of the
behavioural claims about it.

Modelling conventions:
- A URL is represented by its parsed components (structure Url below): the
  original string, the network location, the path and the raw query string.
  Python calls to urlparse are modelled by reading these components.
- Python strings are Lean Strings; character-level operations (lower, strip,
  split, slicing, substring containment) are defined below on the underlying
  character lists so that every definition evaluates by kernel reduction.
- Effects (HTTP fetches, the browser driver, filesystem writes, driver.quit)
  are modelled by oracle records passed in explicitly: each oracle field
  records what the corresponding effectful call would return, or that it
  would raise (Except.error carries the exception message str(e)).
- Python exceptions are Except.error values; a try/except block is a match
  on the Except value; a function that cannot raise returns a plain value.
- The auxiliary parsed_data debug dictionary of url_parser.py is not
  modelled; no claim mentions it.
-/

/-! ### Character-list string utilities (Python string operations) -/

/-- Python substring test: listContains sub l is true iff sub occurs
contiguously inside l. -/
def listContains (sub : List Char) : List Char → Bool
  | [] => sub.isEmpty
  | c :: cs => sub.isPrefixOf (c :: cs) || listContains sub cs

/-- Python `sub in s` on strings. -/
def strContains (s sub : String) : Bool := listContains sub.data s.data

/-- Python str.lower (ASCII case folding, as used on URL hosts here). -/
def strToLower (s : String) : String := String.mk (s.data.map Char.toLower)

/-- Python str.strip(): drop whitespace from both ends. -/
def pyStrip (s : String) : String :=
  String.mk (((s.data.dropWhile Char.isWhitespace).reverse.dropWhile Char.isWhitespace).reverse)

/-- Python slicing s[:n]: the first n characters of s. -/
def pyTruncate (s : String) (n : Nat) : String := String.mk (s.data.take n)

/-- Python truthiness-based `a or b` for an optional string and a default:
None and the empty string are falsy. -/
def pyOrStr (v : Option String) (d : String) : String :=
  match v with
  | some s => if s = "" then d else s
  | none => d

/-- Python truthiness-based `a or b` between two optional strings. -/
def pyOrOpt (a b : Option String) : Option String :=
  match a with
  | some s => if s = "" then b else some s
  | none => b

/-- Python str.split(sep) with an explicit one-character separator:
keeps empty pieces, always returns at least one piece. -/
def splitOnChar (sep : Char) : List Char → List (List Char)
  | [] => [[]]
  | c :: cs =>
    if c = sep then [] :: splitOnChar sep cs
    else
      match splitOnChar sep cs with
      | [] => [[c]]
      | t :: ts => (c :: t) :: ts

/-- Split a character list at its first occurrence of = into
(part before, part after); none if = does not occur. -/
def splitFirstEq : List Char → Option (List Char × List Char)
  | [] => none
  | c :: cs =>
    if c = '=' then some ([], cs)
    else (splitFirstEq cs).map (fun kv => (c :: kv.1, kv.2))

/-- urllib.parse.parse_qs on a raw query string, as a key-value list in
query order. Pieces are separated by ampersands; each piece is split at its
first equals sign; pieces without an equals sign or with an empty value are
dropped (keep_blank_values is False). Percent-decoding is not modelled (no
parameter name relevant to the claims is ever percent-encoded). -/
def parseQsList (q : List Char) : List (List Char × List Char) :=
  (splitOnChar '&' q).filterMap fun p =>
    match splitFirstEq p with
    | some kv => if kv.2 = [] then none else some kv
    | none => none

/-- query_params.get(k, [None])[0]: the first value of parameter k. -/
def getParam (q : String) (k : String) : Option String :=
  ((parseQsList q.data).find? (fun kv => kv.1 == k.data)).map (fun kv => String.mk kv.2)

/-- re.sub applied with the anchored pattern for a leading www. prefix:
strip the prefix www. if present. -/
def stripWWW (s : String) : String :=
  if ([ 'w', 'w', 'w', '.' ] : List Char).isPrefixOf s.data then String.mk (s.data.drop 4) else s

/-- re.search of a literal pattern followed by a digit group: find the first
position where pat occurs immediately followed by at least one digit, and
return the maximal digit run (the group match). -/
def searchLiteralDigits (pat : List Char) : List Char → Option (List Char)
  | [] => none
  | c :: cs =>
    if pat.isPrefixOf (c :: cs) then
      match ((c :: cs).drop pat.length).takeWhile Char.isDigit with
      | [] => searchLiteralDigits pat cs
      | d :: ds => some (d :: ds)
    else searchLiteralDigits pat cs

/-- re.search of a literal pattern followed by a group of one or more
characters other than slash and question mark (the LinkedIn company slug
pattern): return the maximal such run after the first viable occurrence. -/
def searchLiteralSlug (pat : List Char) : List Char → Option (List Char)
  | [] => none
  | c :: cs =>
    if pat.isPrefixOf (c :: cs) then
      match ((c :: cs).drop pat.length).takeWhile (fun x => !(x = '/' || x = '?')) with
      | [] => searchLiteralSlug pat cs
      | d :: ds => some (d :: ds)
    else searchLiteralSlug pat cs

/-- Python str.replace of hyphens by spaces. -/
def replaceDash (l : List Char) : List Char :=
  l.map (fun c => if c = '-' then ' ' else c)

/-- Python str.replace removing every occurrence of the literal .htm. -/
def replaceHtm : List Char → List Char
  | '.' :: 'h' :: 't' :: 'm' :: rest => replaceHtm rest
  | c :: cs => c :: replaceHtm cs
  | [] => []

/-- Python str.title on ASCII text: the first alphabetic character of each
alphabetic run is uppercased, the rest lowercased. -/
def pyTitleAux : Bool → List Char → List Char
  | _, [] => []
  | prevAlpha, c :: cs =>
    (if c.isAlpha then (if prevAlpha then c.toLower else c.toUpper) else c)
      :: pyTitleAux c.isAlpha cs

/-- Python str.title of a character list. -/
def pyTitle (l : List Char) : List Char := pyTitleAux false l

/-- Python str.strip applied with slash as the strip set. -/
def stripSlashes (l : List Char) : List Char :=
  ((l.dropWhile (· = '/')).reverse.dropWhile (· = '/')).reverse

/-! ### The URL data model -/

/-- A URL as seen through urlparse: the raw string and the parsed
netloc / path / query components read by the code. -/
structure Url where
  raw : String
  netloc : String
  path : String
  query : String
deriving DecidableEq

/-! ### SmartJobURLParser (backend/url_parser.py) -/

/-- The common_job_titles list of SmartJobURLParser. -/
def common_job_titles : List String :=
  [ "Software Engineer", "Data Scientist", "Product Manager", "Designer",
    "Marketing Manager", "Sales Representative", "Project Manager",
    "Business Analyst", "DevOps Engineer", "Frontend Developer",
    "Backend Developer", "Full Stack Developer", "UX Designer",
    "Data Analyst", "Technical Writer", "QA Engineer", "Consultant" ]

/-- SmartJobURLParser._determine_source_site: classify a (lowercased,
www-stripped) domain by substring containment. -/
def parser_determine_source_site (domain : String) : String :=
  if strContains domain "linkedin" then "linkedin"
  else if strContains domain "indeed" then "indeed"
  else if strContains domain "glassdoor" then "glassdoor"
  else if strContains domain "google" then "google_jobs"
  else if strContains domain "ziprecruiter" then "ziprecruiter"
  else "other"

/-- The result record of SmartJobURLParser.parse_job_url. Option fields are
None-able dictionary values; error is absent (none) on the normal path. -/
structure ParseResult where
  job_url : String
  source_site : String
  job_id : Option String
  company_name : Option String
  job_title : Option String
  location : Option String
  suggested_titles : List String
  description_preview : Option String := none
  error : Option String := none
deriving DecidableEq

/-- A partial dictionary returned by one per-site parse function, applied to
the result via dict.update: a field set to some v overwrites the result
field with v (which may itself be None); a field set to none is a key the
parse function did not return, leaving the result field unchanged. -/
structure FieldUpdate where
  job_id : Option (Option String) := none
  company_name : Option (Option String) := none
  job_title : Option (Option String) := none
  location : Option (Option String) := none
deriving DecidableEq

/-- result.update(parsed_data) for the per-site parse functions. -/
def applyUpdate (r : ParseResult) (u : FieldUpdate) : ParseResult :=
  { r with
    job_id := u.job_id.getD r.job_id
    company_name := u.company_name.getD r.company_name
    job_title := u.job_title.getD r.job_title
    location := u.location.getD r.location }

/-- SmartJobURLParser._parse_linkedin_url: numeric job id after a
/jobs/view/ segment; company slug after linkedin.com/company/, with hyphens
replaced by spaces and title-cased. -/
def parse_linkedin_url (url : Url) : FieldUpdate :=
  let job_id := (searchLiteralDigits "/jobs/view/".data url.raw.data).map String.mk
  let company_name :=
    (searchLiteralSlug "linkedin.com/company/".data url.raw.data).map
      (fun l => String.mk (pyTitle (replaceDash l)))
  { job_id := some job_id, company_name := some company_name }

/-- The ValueError message raised by _parse_indeed_url for a search-results
URL (str(e) of the raised exception). -/
def indeedSearchMessage : String :=
  "This appears to be a search results URL without a specific job selected. Please click on a specific job posting and copy that URL instead. Look for URLs that contain \x27viewjob\x27 or a \x27vjk\x27 parameter."

/-- SmartJobURLParser._parse_indeed_url: job id from the jk or vjk query
parameter; raises (Except.error) on a search-results URL, i.e. when no job
id was found and the raw query string contains the substring q= ; otherwise
returns job id and the l query parameter as location. -/
def parse_indeed_url (url : Url) : Except String FieldUpdate :=
  if pyOrOpt (getParam url.query "jk") (getParam url.query "vjk") = none
      && strContains url.query "q=" then
    .error indeedSearchMessage
  else
    .ok { job_id := some (pyOrOpt (getParam url.query "jk") (getParam url.query "vjk")),
          location := some (getParam url.query "l") }

/-- SmartJobURLParser._parse_glassdoor_url: job id as the digits after the
literal JV_ID; heuristic split of the last path segment (minus .htm,
hyphens to spaces) into whitespace tokens, taking tokens one and two as a
title guess and tokens three and four as a company guess when there are at
least three tokens and the path has more than two slash-separated parts. -/
def parse_glassdoor_url (url : Url) : FieldUpdate :=
  let job_id := (searchLiteralDigits "JV_ID".data url.raw.data).map String.mk
  let path_parts := splitOnChar '/' url.path.data
  if path_parts.length > 2 then
    let job_listing_part := replaceDash (replaceHtm (path_parts.getLast?.getD []))
    let parts := splitOnChar ' ' job_listing_part
    if parts.length ≥ 3 then
      let potential_title := String.mk (pyTitle (List.intercalate [ ' ' ] (parts.take 2)))
      let potential_company := String.mk (pyTitle (List.intercalate [ ' ' ] ((parts.drop 2).take 2)))
      { job_id := some job_id, job_title := some (some potential_title),
        company_name := some (some potential_company) }
    else { job_id := some job_id }
  else { job_id := some job_id }

/-- SmartJobURLParser._parse_google_jobs_url: title from the q query
parameter, location from l or location. -/
def parse_google_jobs_url (url : Url) : FieldUpdate :=
  let location := pyOrOpt (getParam url.query "l") (getParam url.query "location")
  let q := getParam url.query "q"
  { job_title := some q, location := some location }

/-- SmartJobURLParser._parse_ziprecruiter_url: the path segment following
the segment jobs, hyphens to spaces, title-cased, as the company guess. -/
def parse_ziprecruiter_url (url : Url) : FieldUpdate :=
  let path_parts := splitOnChar '/' (stripSlashes url.path.data)
  if path_parts.contains "jobs".data then
    match path_parts.findIdx? (fun p => p == "jobs".data) with
    | some jobs_index =>
      if path_parts.length > jobs_index + 1 then
        match (path_parts.drop (jobs_index + 1)).head? with
        | some seg =>
          { company_name := some (some (String.mk (pyTitle (replaceDash seg)))) }
        | none => {}
      else {}
    | none => {}
  else {}

/-- The per-site dispatch loop of parse_job_url: the first site pattern that
is a substring of the (lowercased, www-stripped) domain selects the parse
function, in the insertion order of the company_patterns dictionary. Only
the Indeed branch can raise. -/
def parse_dispatch (url : Url) : Except String FieldUpdate :=
  if strContains (stripWWW (strToLower url.netloc)) "linkedin.com" then
    .ok (parse_linkedin_url url)
  else if strContains (stripWWW (strToLower url.netloc)) "indeed.com" then
    parse_indeed_url url
  else if strContains (stripWWW (strToLower url.netloc)) "glassdoor.com" then
    .ok (parse_glassdoor_url url)
  else if strContains (stripWWW (strToLower url.netloc)) "jobs.google.com" then
    .ok (parse_google_jobs_url url)
  else if strContains (stripWWW (strToLower url.netloc)) "ziprecruiter.com" then
    .ok (parse_ziprecruiter_url url)
  else .ok {}

/-- The fields of the dictionary returned by _get_page_metadata on success:
the processed page title, the company name split out of it, and the
description preview. -/
structure MetaData where
  job_title : Option String
  company_name : Option String
  description_preview : Option String
deriving DecidableEq

/-- Oracle for the network fetch inside _get_page_metadata: either the
metadata dictionary assembled from the fetched page (title cleanup and
title/company regex splitting included), or the exception the fetch would
raise. -/
structure ParseEnv where
  meta : Except String MetaData

/-- SmartJobURLParser._get_page_metadata: its try block wraps the whole
fetch; any exception is caught and an empty dictionary (here none) is
returned, so this function never raises. -/
def get_page_metadata (env : ParseEnv) : Option MetaData :=
  match env.meta with
  | .ok m => some m
  | .error _ => none

/-- The initial result dictionary built by parse_job_url: source site
classified from the normalized domain, top-10 title suggestions, all other
fields absent. -/
def parse_base (url : Url) : ParseResult :=
  { job_url := url.raw,
    source_site := parser_determine_source_site (stripWWW (strToLower url.netloc)),
    job_id := none, company_name := none, job_title := none, location := none,
    suggested_titles := common_job_titles.take 10 }

/-- The metadata fallback of parse_job_url: when no job title was found
(None or empty, the Python falsy values), fetch the page metadata and, on
success, overwrite the title, company and description-preview fields with
the metadata dictionary values (dict.update semantics, even when those
values are themselves None). -/
def parse_with_meta (env : ParseEnv) (r : ParseResult) : ParseResult :=
  if r.job_title = none || r.job_title = some "" then
    match get_page_metadata env with
    | some m =>
      { r with job_title := m.job_title, company_name := m.company_name,
               description_preview := m.description_preview }
    | none => r
  else r

/-- SmartJobURLParser.parse_job_url: build the base result, apply the
dispatched per-site parse function, fall back to the page-metadata fetch
when no job title was found, and catch any exception into the degraded
result with source_site unknown and an error field. -/
def parse_job_url (env : ParseEnv) (url : Url) : ParseResult :=
  match parse_dispatch url with
  | .error m =>
    { job_url := url.raw, source_site := "unknown",
      job_id := none, company_name := none, job_title := none, location := none,
      suggested_titles := common_job_titles.take 10, error := some m }
  | .ok u => parse_with_meta env (applyUpdate (parse_base url) u)

/-! ### JobScraper (backend/scraper.py) -/

/-- JobScraper._determine_source_site, factored over the extracted domain:
substring classification over glassdoor, linkedin, indeed, else unknown. -/
def scraper_classify_domain (domain : String) : String :=
  if strContains domain "glassdoor" then "glassdoor"
  else if strContains domain "linkedin" then "linkedin"
  else if strContains domain "indeed" then "indeed"
  else "unknown"

/-- JobScraper._determine_source_site: urlparse(url).netloc.lower() then
classify. -/
def scraper_determine_source_site (url : Url) : String :=
  scraper_classify_domain (strToLower url.netloc)

/-- Outcome of one driver.find_element call in the browser tier: an element
whose .text is the carried string, a NoSuchElementException or
TimeoutException (caught by the fallback loop), or any other exception
(which the fallback loop does not catch). -/
inductive LookupResult where
  | found (text : String)
  | missing
  | err (msg : String)
deriving DecidableEq

/-- An acquired Chrome driver, as an oracle for the effectful calls made on
it: driver.get (nav), driver.find_element per selector (lookup), and
driver.page_source (pageSource). Each Except.error is the exception the
call would raise. -/
structure Driver where
  nav : Except String Unit
  lookup : String → LookupResult
  pageSource : Except String String

/-- The HTTP response seen by _try_requests_scraping: status code, the
parsed document as an oracle from CSS selector to the value of
select_one(sel).get_text(strip=True) (none when select_one found no
element), and response.text. -/
structure HttpResponse where
  status : Nat
  doc : String → Option String
  text : String

/-- Oracle record for one scrape_job call: the requests.get outcome of
Tier 1 (none when the request or parsing raised, which the tier catches),
the two _save_html_snapshot outcomes (Tier-1 save and Tier-2 save, each a
path or a raised exception), the _get_chrome_driver outcome, and the
driver.quit outcome. -/
structure ScrapeEnv where
  response : Option HttpResponse
  save1 : Except String String
  acquire : Except String Driver
  save2 : Except String String
  quit : Except String Unit

/-- The dictionary produced by scrape_job on every path. Keys absent from a
given path are none for the optional fields. -/
structure ScrapeResult where
  company_name : String
  job_title : String
  job_description : String
  source_site : String
  html_snapshot_path : Option String
  extraction_method : Option String
deriving DecidableEq

/-- The bundle a site-specific extractor returns. -/
structure SiteData where
  company_name : String
  job_title : String
  job_description : String
  source_site : String
deriving DecidableEq

/-- JobScraper._find_element_with_fallbacks: walk the selector list; a found
element whose stripped text is non-empty is returned at once; a
NoSuchElementException or TimeoutException is caught and the loop
continues; any other exception propagates. Returns none when the list is
exhausted. -/
def find_element_with_fallbacks (lookup : String → LookupResult) : List String → Except String (Option String)
  | [] => .ok none
  | s :: rest =>
    match lookup s with
    | .found raw =>
      let text := pyStrip raw
      if text ≠ "" then .ok (some text) else find_element_with_fallbacks lookup rest
    | .missing => find_element_with_fallbacks lookup rest
    | .err m => .error m

/-- find_element_with_fallbacks instrumented with the list of selectors the
loop actually evaluated (call-count instrumentation). -/
def find_trace (lookup : String → LookupResult) : List String → Except String (Option String) × List String
  | [] => (.ok none, [])
  | s :: rest =>
    match lookup s with
    | .found raw =>
      let text := pyStrip raw
      if text ≠ "" then (.ok (some text), [s])
      else
        let r := find_trace lookup rest
        (r.1, s :: r.2)
    | .missing =>
      let r := find_trace lookup rest
      (r.1, s :: r.2)
    | .err m => (.error m, [s])

/-- The generic selector loop of _try_requests_scraping over the parsed
document: first selector whose element exists with non-empty stripped text
wins. -/
def select_first_nonempty (doc : String → Option String) : List String → Option String
  | [] => none
  | sel :: rest =>
    match doc sel with
    | some t => if t ≠ "" then some t else select_first_nonempty doc rest
    | none => select_first_nonempty doc rest

/-- Title selectors of _try_requests_scraping. -/
def tier1_title_selectors : List String :=
  [ "h1[data-testid*=\"title\"]",
    "h1[class*=\"job-title\"]",
    "h1[class*=\"title\"]",
    "h1",
    "[data-testid*=\"job-title\"]",
    "[class*=\"job-title\"]" ]

/-- Company selectors of _try_requests_scraping. -/
def tier1_company_selectors : List String :=
  [ "[data-testid*=\"company\"]",
    "[class*=\"company-name\"]",
    "[class*=\"employer\"]",
    "a[href*=\"company\"]",
    "span[class*=\"company\"]" ]

/-- Description selectors of _try_requests_scraping. -/
def tier1_desc_selectors : List String :=
  [ "[data-testid*=\"description\"]",
    "[class*=\"job-description\"]",
    "[class*=\"description\"]",
    "[id*=\"description\"]" ]

/-- The dictionary returned by a successful _try_requests_scraping call. -/
structure ReqData where
  company_name : String
  job_title : String
  job_description : String
  html_content : String
  extraction_method : String
deriving DecidableEq

/-- The body of _try_requests_scraping over the requests.get outcome: on
HTTP 200 run the three generic selector loops (the description is truncated
to its first 2000 characters); succeed only if a title or a company was
found, substituting the fixed placeholders for missing fields; a non-200
status returns None, as does a raised request (the none case, since the
whole body is inside a try that catches every exception). -/
def tier1_extract : Option HttpResponse → Option ReqData
  | none => none
  | some resp =>
    if resp.status = 200 then
      if select_first_nonempty resp.doc tier1_title_selectors ≠ none
          || select_first_nonempty resp.doc tier1_company_selectors ≠ none then
        some { company_name :=
                 pyOrStr (select_first_nonempty resp.doc tier1_company_selectors)
                   "Unknown Company",
               job_title :=
                 pyOrStr (select_first_nonempty resp.doc tier1_title_selectors)
                   "Unknown Position",
               job_description :=
                 pyOrStr ((select_first_nonempty resp.doc tier1_desc_selectors).map
                     (fun t => pyTruncate t 2000))
                   "No description available",
               html_content := resp.text,
               extraction_method := "requests" }
      else none
    else none

/-- JobScraper._try_requests_scraping applied to the environment oracle. -/
def try_requests_scraping (env : ScrapeEnv) : Option ReqData :=
  tier1_extract env.response

/-- Company selectors of _scrape_linkedin. -/
def linkedin_company_selectors : List String :=
  [ ".job-details-jobs-unified-top-card__company-name a",
    ".job-details-jobs-unified-top-card__company-name",
    "[data-testid=\x27job-details-company-name\x27]",
    ".jobs-unified-top-card__company-name a",
    ".jobs-unified-top-card__company-name",
    ".job-details-company a",
    ".job-details-company",
    "a[data-control-name=\x27job_details_topcard_company_url\x27]" ]

/-- Title selectors of _scrape_linkedin. -/
def linkedin_title_selectors : List String :=
  [ ".job-details-jobs-unified-top-card__job-title a",
    ".job-details-jobs-unified-top-card__job-title",
    ".jobs-unified-top-card__job-title a",
    ".jobs-unified-top-card__job-title",
    "h1[data-testid=\x27job-details-job-title\x27]",
    "h1.job-details-job-title",
    "h1.jobs-unified-top-card__job-title",
    "h1" ]

/-- Description selectors of _scrape_linkedin. -/
def linkedin_desc_selectors : List String :=
  [ ".job-details-jobs-unified-top-card__job-description",
    ".jobs-description-content__text",
    ".jobs-box__html-content",
    ".job-details-job-description",
    "[data-testid=\x27job-details-job-description\x27]",
    ".jobs-description__content",
    ".job-view-layout .jobs-box__html-content" ]

/-- Company selectors of _scrape_glassdoor. -/
def glassdoor_company_selectors : List String :=
  [ "[data-test=\x27employer-name\x27]",
    ".employer-name",
    "[data-testid=\x27employer-name\x27]",
    ".jobview-header-employer-name",
    ".job-details-employer-name",
    "span[data-test=\x27employer-name\x27]",
    ".employer-info span" ]

/-- Title selectors of _scrape_glassdoor. -/
def glassdoor_title_selectors : List String :=
  [ "[data-test=\x27job-title\x27]",
    ".job-title",
    "[data-testid=\x27job-title\x27]",
    ".jobview-header-job-title",
    ".job-details-job-title",
    "h1[data-test=\x27job-title\x27]",
    "h1.job-title" ]

/-- Description selectors of _scrape_glassdoor. -/
def glassdoor_desc_selectors : List String :=
  [ "[data-test=\x27job-description-content\x27]",
    ".job-description-content",
    "[data-testid=\x27job-description-content\x27]",
    ".jobview-job-description-content",
    ".job-details-description-content",
    ".jobDescriptionContent",
    "#job-description-content" ]

/-- Company selectors of _scrape_indeed. -/
def indeed_company_selectors : List String :=
  [ "[data-testid=\x27inlineHeader-companyName\x27]",
    "[data-testid=\x27company-name\x27]",
    "span[data-testid=\x27company-name\x27]",
    ".icl-u-lg-mr--sm",
    "span[class*=\x27company\x27]",
    "[data-testid=\x27jobsearch-CompanyInfoContainer\x27] span",
    ".jobsearch-CompanyInfoWithoutHeaderImage span" ]

/-- Title selectors of _scrape_indeed. -/
def indeed_title_selectors : List String :=
  [ "[data-testid=\x27jobsearch-JobInfoHeader-title\x27]",
    "h1[data-testid=\x27jobsearch-JobInfoHeader-title\x27]",
    "h1.jobsearch-JobInfoHeader-title",
    "h1",
    ".jobsearch-JobInfoHeader-title",
    "[data-testid=\x27job-title\x27]" ]

/-- Description selectors of _scrape_indeed. -/
def indeed_desc_selectors : List String :=
  [ "#jobDescriptionText",
    "[data-testid=\x27jobsearch-JobComponent-description\x27]",
    ".jobsearch-JobComponent-description",
    "[data-testid=\x27job-description\x27]",
    ".jobDescriptionContent",
    "#job-description" ]

/-- Selectors of the generic Tier-2 fallback in scrape_job. -/
def generic_title_selectors : List String :=
  [ "h1", "title", ".job-title", ".title" ]

/-- The sequential body of a site extractor once navigation succeeded: the
three fallback chains in order (company, title, description), each
propagating an uncaught exception, then the bundle with placeholders
substituted for missing fields. -/
def extract_three_chains (drv : Driver) (companySel titleSel descSel : List String)
    (source_site : String) : Except String SiteData :=
  match find_element_with_fallbacks drv.lookup companySel with
  | .error m => .error m
  | .ok company =>
    match find_element_with_fallbacks drv.lookup titleSel with
    | .error m => .error m
    | .ok title =>
      match find_element_with_fallbacks drv.lookup descSel with
      | .error m => .error m
      | .ok desc =>
        .ok { company_name := pyOrStr company "Unknown Company",
              job_title := pyOrStr title "Unknown Position",
              job_description := pyOrStr desc "No description available",
              source_site := source_site }

/-- JobScraper._scrape_linkedin: navigate (driver.get may raise), then the
three fallback chains, substituting placeholders for missing fields. -/
def scrape_linkedin (drv : Driver) : Except String SiteData :=
  match drv.nav with
  | .error m => .error m
  | .ok _ =>
    extract_three_chains drv linkedin_company_selectors linkedin_title_selectors
      linkedin_desc_selectors "linkedin"

/-- JobScraper._scrape_glassdoor. -/
def scrape_glassdoor (drv : Driver) : Except String SiteData :=
  match drv.nav with
  | .error m => .error m
  | .ok _ =>
    extract_three_chains drv glassdoor_company_selectors glassdoor_title_selectors
      glassdoor_desc_selectors "glassdoor"

/-- JobScraper._scrape_indeed. -/
def scrape_indeed (drv : Driver) : Except String SiteData :=
  match drv.nav with
  | .error m => .error m
  | .ok _ =>
    extract_three_chains drv indeed_company_selectors indeed_title_selectors
      indeed_desc_selectors "indeed"

/-- The generic Tier-2 fallback branch of scrape_job for an unknown source
site. -/
def scrape_generic (drv : Driver) (source_site : String) : Except String SiteData :=
  match drv.nav with
  | .error m => .error m
  | .ok _ =>
    match find_element_with_fallbacks drv.lookup generic_title_selectors with
    | .error m => .error m
    | .ok generic_title =>
      .ok { company_name := "Unknown Company",
            job_title := pyOrStr generic_title "Unknown Position",
            job_description := "No description available",
            source_site := source_site }

/-- The site dispatch of scrape_job Tier 2: linkedin, glassdoor, indeed,
else the generic fallback. -/
def site_dispatch (drv : Driver) (source_site : String) : Except String SiteData :=
  if source_site = "linkedin" then scrape_linkedin drv
  else if source_site = "glassdoor" then scrape_glassdoor drv
  else if source_site = "indeed" then scrape_indeed drv
  else scrape_generic drv source_site

/-- The placeholder result built by the except branch of scrape_job, with
the failure detail embedded in the description. -/
def scrape_error_result (source_site : String) (msg : String) : ScrapeResult :=
  { company_name := "Unknown Company",
    job_title := "Unknown Position",
    job_description := "Error occurred while scraping: " ++ msg,
    source_site := source_site,
    html_snapshot_path := none,
    extraction_method := none }

/-- The Tier-1 branch of scrape_job: if _try_requests_scraping produced
data, try to save the HTML snapshot; on success return that result at once
(html_content removed, snapshot path and classified source site added); if
the save raised, fall through to Tier 2 (none). -/
def tier1_result (env : ScrapeEnv) (source_site : String) : Option ScrapeResult :=
  match try_requests_scraping env with
  | none => none
  | some rr =>
    match env.save1 with
    | .ok html_path =>
      some { company_name := rr.company_name,
             job_title := rr.job_title,
             job_description := rr.job_description,
             source_site := source_site,
             html_snapshot_path := some html_path,
             extraction_method := some rr.extraction_method }
    | .error _ => none

/-- The inner snapshot try of the Tier-2 branch: read driver.page_source
and save it; an exception raised by either is caught into a None snapshot
path. -/
def tier2_snapshot (env : ScrapeEnv) (drv : Driver) : Option String :=
  match drv.pageSource with
  | .error _ => none
  | .ok _ =>
    match env.save2 with
    | .ok p => some p
    | .error _ => none

/-- The try/except part of the Tier-2 branch once a driver was acquired:
the dispatched extraction, the inner snapshot try (tier2_snapshot), and the
outer except building the placeholder error result. -/
def tier2_body (env : ScrapeEnv) (drv : Driver) (source_site : String) : ScrapeResult :=
  match site_dispatch drv source_site with
  | .error m => scrape_error_result source_site m
  | .ok jd =>
    { company_name := jd.company_name,
      job_title := jd.job_title,
      job_description := jd.job_description,
      source_site := jd.source_site,
      html_snapshot_path := tier2_snapshot env drv,
      extraction_method := none }

/-- The Tier-2 (Selenium) branch of scrape_job, returning the result paired
with the number of driver.quit invocations. The try/except/finally of the
source: _get_chrome_driver raising means the driver variable stays None and
the finally block does not quit; otherwise the finally block quits the
driver exactly once and swallows any exception that driver.quit itself
raises (try/except pass), leaving the body result unchanged. -/
def tier2_run (env : ScrapeEnv) (source_site : String) : ScrapeResult × Nat :=
  match env.acquire with
  | .error m => (scrape_error_result source_site m, 0)
  | .ok drv =>
    match env.quit with
    | .ok _ => (tier2_body env drv source_site, 1)
    | .error _ => (tier2_body env drv source_site, 1)

/-- JobScraper.scrape_job: classify the source site, try Tier 1, fall back
to Tier 2. The second component counts driver.quit invocations. -/
def scrape_job (env : ScrapeEnv) (url : Url) : ScrapeResult × Nat :=
  let source_site := scraper_determine_source_site url
  match tier1_result env source_site with
  | some r => (r, 0)
  | none => tier2_run env source_site

/-- The failure condition of the browser tier: the exception message that
reaches the outer except branch of scrape_job, if any. Either
_get_chrome_driver raised, or the dispatched site extractor raised (the
inner snapshot try has its own handler and never reaches the outer one). -/
def browser_failure (env : ScrapeEnv) (source_site : String) : Option String :=
  match env.acquire with
  | .error m => some m
  | .ok drv =>
    match site_dispatch drv source_site with
    | .error m => some m
    | .ok _ => none

/-- A selector the fallback loop passes over without returning: the lookup
raises a caught NoSuchElementException or TimeoutException, or finds an
element whose stripped text is empty. -/
def chain_skips (lookup : String → LookupResult) (s : String) : Prop :=
  lookup s = .missing ∨ ∃ raw, lookup s = .found raw ∧ pyStrip raw = ""

/-! ### Concrete fixtures used by witnesses and counterexamples -/

/-- A URL on a host that is not a recognized job board. -/
def urlExample : Url :=
  { raw := "https://example.com/", netloc := "example.com", path := "/", query := "" }

/-- A LinkedIn job-view URL. -/
def urlLinkedin : Url :=
  { raw := "https://www.linkedin.com/jobs/view/3849201/",
    netloc := "www.linkedin.com", path := "/jobs/view/3849201/", query := "" }

/-- An Indeed search-results URL (query, no jk or vjk job key). -/
def urlIndeedSearch : Url :=
  { raw := "https://ca.indeed.com/jobs?q=engineer&l=Toronto",
    netloc := "ca.indeed.com", path := "/jobs", query := "q=engineer&l=Toronto" }

/-- A search URL on a host that contains indeed but not indeed.com. -/
def urlIndeedOrg : Url :=
  { raw := "https://indeed.org/jobs?q=engineer",
    netloc := "indeed.org", path := "/jobs", query := "q=engineer" }

/-- A parse environment whose metadata fetch raises a network error. -/
def metaFailEnv : ParseEnv := { meta := .error "connection timed out" }

/-- A driver on which every element lookup misses. -/
def drvAllMissing : Driver :=
  { nav := .ok (), lookup := fun _ => .missing, pageSource := .ok "<html></html>" }

/-- A driver whose navigation raises. -/
def drvNavBoom : Driver :=
  { nav := .error "net::ERR_TIMED_OUT", lookup := fun _ => .missing,
    pageSource := .ok "<html></html>" }

/-- An HTTP 200 response whose document yields a title under the bare h1
selector and nothing else. -/
def respTitle : HttpResponse :=
  { status := 200, doc := fun s => if s = "h1" then some "Engineer" else none,
    text := "<html>requests</html>" }

/-- An HTTP 200 response that also yields a short job description. -/
def respDesc : HttpResponse :=
  { status := 200,
    doc := fun s =>
      if s = "h1" then some "Engineer"
      else if s = "[data-testid*=\"description\"]" then some "worddesc"
      else none,
    text := "<html>requests</html>" }

/-- An environment where Tier 1 succeeds and its snapshot save succeeds. -/
def envTier1Ok : ScrapeEnv :=
  { response := some respTitle, save1 := .ok "../snapshots/a.html",
    acquire := .ok drvAllMissing, save2 := .ok "../snapshots/b.html", quit := .ok () }

/-- An environment where Tier 1 succeeds with a description found. -/
def envDesc : ScrapeEnv :=
  { response := some respDesc, save1 := .ok "../snapshots/a.html",
    acquire := .ok drvAllMissing, save2 := .ok "../snapshots/b.html", quit := .ok () }

/-- An environment where Tier 1 extracts data but the snapshot save raises. -/
def envTier1SaveFail : ScrapeEnv :=
  { response := some respTitle, save1 := .error "disk full",
    acquire := .ok drvAllMissing, save2 := .ok "../snapshots/b.html", quit := .ok () }

/-- An environment where Tier 1 yields nothing and the browser navigation
raises; driver.quit also raises. -/
def envTier2Err : ScrapeEnv :=
  { response := none, save1 := .ok "../snapshots/a.html",
    acquire := .ok drvNavBoom, save2 := .ok "../snapshots/b.html",
    quit := .error "quit failed" }

/-- An environment where Tier 1 yields nothing and the browser tier
completes normally. -/
def envTier2Ok : ScrapeEnv :=
  { response := none, save1 := .ok "../snapshots/a.html",
    acquire := .ok drvAllMissing, save2 := .ok "../snapshots/c.html", quit := .ok () }

/-- The Tier-1 result produced under envTier1Ok for a host classified
unknown. -/
def tier1ExampleResult : ScrapeResult :=
  { company_name := "Unknown Company", job_title := "Engineer",
    job_description := "No description available", source_site := "unknown",
    html_snapshot_path := some "../snapshots/a.html",
    extraction_method := some "requests" }

/-- The Tier-1 result produced under envDesc for a host classified
unknown. -/
def tier1DescResult : ScrapeResult :=
  { company_name := "Unknown Company", job_title := "Engineer",
    job_description := "worddesc", source_site := "unknown",
    html_snapshot_path := some "../snapshots/a.html",
    extraction_method := some "requests" }

/-- A driver every one of whose element lookups finds an element with the
given text. -/
def drvConstFound (s : String) : Driver :=
  { nav := .ok (), lookup := fun _ => .found s, pageSource := .ok "" }

/-- A lookup for the short-circuit witness: the first selector misses, the
second finds padded text, the third would find a sentinel that must never
be observed. -/
def lookupShortCircuit : String → LookupResult := fun s =>
  if s = "a" then .missing
  else if s = "b" then .found " T "
  else .found "never evaluated"

/-! ### Supporting lemmas -/

theorem isPrefixOf_append_self (l t : List Char) : l.isPrefixOf (l ++ t) = true := by
  induction l with
  | nil => cases t <;> rfl
  | cons a as ih => simp [List.isPrefixOf, ih]

theorem listContains_nil_left (l : List Char) : listContains [] l = true := by
  cases l <;> simp [listContains]

theorem listContains_of_append (sub pre post : List Char) :
    listContains sub (pre ++ sub ++ post) = true := by
  induction pre with
  | nil =>
    cases sub with
    | nil => simpa using listContains_nil_left post
    | cons s ss =>
      show ((s :: ss).isPrefixOf ((s :: ss) ++ post) || listContains (s :: ss) (ss ++ post)) = true
      rw [isPrefixOf_append_self]
      simp
  | cons c cs ih =>
    show (sub.isPrefixOf (c :: (cs ++ sub ++ post)) || listContains sub (cs ++ sub ++ post)) = true
    rw [ih]
    simp

theorem splitOnChar_head (sep : Char) (l : List Char) :
    ∃ t ts rest, splitOnChar sep l = t :: ts ∧ l = t ++ rest := by
  induction l with
  | nil => exact ⟨[], [], [], rfl, rfl⟩
  | cons c cs ih =>
    by_cases hc : c = sep
    · exact ⟨[], splitOnChar sep cs, c :: cs, by simp [splitOnChar, hc], rfl⟩
    · obtain ⟨t, ts, rest, hsplit, hdecomp⟩ := ih
      exact ⟨c :: t, ts, rest, by simp [splitOnChar, hc, hsplit], by simp [hdecomp]⟩

theorem splitOnChar_mem_decomp (sep : Char) :
    ∀ l : List Char, ∀ p ∈ splitOnChar sep l, ∃ pre post, l = pre ++ p ++ post := by
  intro l
  induction l with
  | nil =>
    intro p hp
    simp [splitOnChar] at hp
    exact ⟨[], [], by simp [hp]⟩
  | cons c cs ih =>
    intro p hp
    simp only [splitOnChar] at hp
    by_cases hc : c = sep
    · rw [if_pos hc] at hp
      rcases List.mem_cons.mp hp with h1 | h2
      · exact ⟨[], c :: cs, by simp [h1]⟩
      · obtain ⟨pre, post, hd⟩ := ih p h2
        exact ⟨c :: pre, post, by simp [hd]⟩
    · rw [if_neg hc] at hp
      obtain ⟨t, ts, rest, hsplit, hdecomp⟩ := splitOnChar_head sep cs
      rw [hsplit] at hp
      rcases List.mem_cons.mp hp with h1 | h2
      · exact ⟨[], rest, by simp [h1, hdecomp]⟩
      · obtain ⟨pre, post, hd⟩ := ih p (by rw [hsplit]; exact List.mem_cons_of_mem _ h2)
        exact ⟨c :: pre, post, by simp [hd]⟩

theorem splitFirstEq_decomp :
    ∀ {p k v : List Char}, splitFirstEq p = some (k, v) → p = k ++ '=' :: v := by
  intro p
  induction p with
  | nil => intro k v h; simp [splitFirstEq] at h
  | cons c cs ih =>
    intro k v h
    simp only [splitFirstEq] at h
    by_cases hc : c = '='
    · rw [if_pos hc] at h
      have h2 := Option.some.inj h
      have hk : ([] : List Char) = k := congrArg Prod.fst h2
      have hv : cs = v := congrArg Prod.snd h2
      rw [← hk, ← hv, hc]
      rfl
    · rw [if_neg hc] at h
      rw [Option.map_eq_some'] at h
      obtain ⟨⟨k0, v0⟩, hkv, heq⟩ := h
      have hk : c :: k0 = k := congrArg Prod.fst heq
      have hv : v0 = v := congrArg Prod.snd heq
      rw [← hk, ← hv]
      simpa using ih hkv

theorem getParam_some_contains {q k : String} {v : String}
    (h : getParam q k = some v) : listContains (k.data ++ [ '=' ]) q.data = true := by
  unfold getParam at h
  rw [Option.map_eq_some'] at h
  obtain ⟨⟨k0, v0⟩, hfind, _⟩ := h
  have hkey : k0 == k.data := by
    simpa using List.find?_some hfind
  have hk0 : k0 = k.data := by
    exact eq_of_beq hkey
  have hmem : (k0, v0) ∈ parseQsList q.data := List.mem_of_find?_eq_some hfind
  unfold parseQsList at hmem
  rw [List.mem_filterMap] at hmem
  obtain ⟨p, hp, hmatch⟩ := hmem
  have hdec : p = k0 ++ '=' :: v0 := by
    cases hsp : splitFirstEq p with
    | none => rw [hsp] at hmatch; simp at hmatch
    | some kv =>
      rw [hsp] at hmatch
      have hmatch2 : (if kv.2 = [] then none else some kv) = some (k0, v0) := hmatch
      by_cases hv0 : kv.2 = []
      · rw [if_pos hv0] at hmatch2; simp at hmatch2
      · rw [if_neg hv0] at hmatch2
        have : kv = (k0, v0) := Option.some.inj hmatch2
        exact splitFirstEq_decomp (this ▸ hsp)
  obtain ⟨pre, post, hq⟩ := splitOnChar_mem_decomp '&' q.data p hp
  rw [hq, hdec, hk0]
  have : pre ++ (k.data ++ '=' :: v0) ++ post =
      pre ++ (k.data ++ [ '=' ]) ++ (v0 ++ post) := by simp
  rw [this]
  exact listContains_of_append (k.data ++ [ '=' ]) pre (v0 ++ post)

theorem pyOrStr_ne_empty (v : Option String) (d : String) (hd : d ≠ "") :
    pyOrStr v d ≠ "" := by
  cases v with
  | none => simpa [pyOrStr] using hd
  | some s =>
    by_cases hs : s = "" <;> simp_all [pyOrStr]

theorem pyTruncate_length (s : String) (n : Nat) : (pyTruncate s n).length ≤ n := by
  show (s.data.take n).length ≤ n
  rw [List.length_take]
  exact min_le_left n s.data.length

theorem try_requests_scraping_fields {env : ScrapeEnv} {rr : ReqData}
    (h : try_requests_scraping env = some rr) :
    rr.job_title ≠ "" ∧ rr.company_name ≠ "" ∧
    rr.extraction_method = "requests" ∧ rr.job_description.length ≤ 2000 := by
  unfold try_requests_scraping at h
  cases henv : env.response with
  | none => rw [henv] at h; simp [tier1_extract] at h
  | some resp =>
    rw [henv] at h
    rw [show tier1_extract (some resp) =
          (if resp.status = 200 then
            if select_first_nonempty resp.doc tier1_title_selectors ≠ none
                || select_first_nonempty resp.doc tier1_company_selectors ≠ none then
              some { company_name :=
                       pyOrStr (select_first_nonempty resp.doc tier1_company_selectors)
                         "Unknown Company",
                     job_title :=
                       pyOrStr (select_first_nonempty resp.doc tier1_title_selectors)
                         "Unknown Position",
                     job_description :=
                       pyOrStr ((select_first_nonempty resp.doc tier1_desc_selectors).map
                           (fun t => pyTruncate t 2000))
                         "No description available",
                     html_content := resp.text,
                     extraction_method := "requests" }
            else none
          else none) from rfl] at h
    by_cases hst : resp.status = 200
    · rw [if_pos hst] at h
      split at h
      · have hrr := Option.some.inj h
        rw [← hrr]
        refine ⟨pyOrStr_ne_empty _ _ (by decide), pyOrStr_ne_empty _ _ (by decide), rfl, ?_⟩
        show (pyOrStr ((select_first_nonempty resp.doc tier1_desc_selectors).map
          (fun t => pyTruncate t 2000)) "No description available").length ≤ 2000
        cases hsel : select_first_nonempty resp.doc tier1_desc_selectors with
        | none => decide
        | some t =>
          simp only [Option.map_some', pyOrStr]
          by_cases htr : pyTruncate t 2000 = ""
          · rw [if_pos htr]; decide
          · rw [if_neg htr]; exact pyTruncate_length t 2000
      · simp at h
    · rw [if_neg hst] at h; simp at h

theorem find_element_ok_of_skips {lookup : String → LookupResult} :
    ∀ {chain : List String}, (∀ s ∈ chain, chain_skips lookup s) →
      find_element_with_fallbacks lookup chain = .ok none := by
  intro chain
  induction chain with
  | nil => intro _; rfl
  | cons s rest ih =>
    intro hall
    have hs := hall s (List.mem_cons_self s rest)
    have hrest := fun x hx => hall x (List.mem_cons_of_mem s hx)
    unfold find_element_with_fallbacks
    rcases hs with hmiss | ⟨raw, hfound, hempty⟩
    · rw [hmiss]
      exact ih hrest
    · rw [hfound]
      simp only [hempty]
      simpa using ih hrest

theorem find_trace_fst (lookup : String → LookupResult) :
    ∀ chain : List String,
      (find_trace lookup chain).1 = find_element_with_fallbacks lookup chain := by
  intro chain
  induction chain with
  | nil => rfl
  | cons s rest ih =>
    unfold find_trace find_element_with_fallbacks
    cases lookup s with
    | found raw =>
      by_cases hempty : pyStrip raw = "" <;> simp [hempty, ih]
    | missing => simpa using ih
    | err m => rfl

theorem find_trace_first_match (lookup : String → LookupResult) :
    ∀ (pre : List String) (a : String) (post : List String) (raw : String),
      (∀ s ∈ pre, chain_skips lookup s) → lookup a = .found raw → pyStrip raw ≠ "" →
      find_trace lookup (pre ++ a :: post) = (.ok (some (pyStrip raw)), pre ++ [ a ]) := by
  intro pre
  induction pre with
  | nil =>
    intro a post raw _ hfound hne
    rw [List.nil_append]
    simp only [find_trace]
    rw [hfound]
    simp [hne]
  | cons s rest ih =>
    intro a post raw hall hfound hne
    have hs := hall s (List.mem_cons_self s rest)
    have hrest := fun x hx => hall x (List.mem_cons_of_mem s hx)
    have hrec := ih a post raw hrest hfound hne
    show find_trace lookup (s :: (rest ++ a :: post)) = _
    unfold find_trace
    rcases hs with hmiss | ⟨raw0, hfound0, hempty0⟩
    · rw [hmiss]
      simp [hrec]
    · rw [hfound0]
      simp [hempty0, hrec]

theorem extract_three_chains_ok {drv : Driver} {cs ts ds : List String} {ss : String}
    {sd : SiteData} (h : extract_three_chains drv cs ts ds ss = .ok sd) :
    sd.source_site = ss ∧ sd.job_title ≠ "" ∧ sd.company_name ≠ "" := by
  unfold extract_three_chains at h
  split at h
  · simp at h
  · split at h
    · simp at h
    · split at h
      · simp at h
      · have hsd := Except.ok.inj h
        rw [← hsd]
        exact ⟨rfl, pyOrStr_ne_empty _ _ (by decide), pyOrStr_ne_empty _ _ (by decide)⟩

theorem scrape_linkedin_ok {drv : Driver} {sd : SiteData}
    (h : scrape_linkedin drv = .ok sd) :
    sd.source_site = "linkedin" ∧ sd.job_title ≠ "" ∧ sd.company_name ≠ "" := by
  unfold scrape_linkedin at h
  split at h
  · simp at h
  · exact extract_three_chains_ok h

theorem scrape_glassdoor_ok {drv : Driver} {sd : SiteData}
    (h : scrape_glassdoor drv = .ok sd) :
    sd.source_site = "glassdoor" ∧ sd.job_title ≠ "" ∧ sd.company_name ≠ "" := by
  unfold scrape_glassdoor at h
  split at h
  · simp at h
  · exact extract_three_chains_ok h

theorem scrape_indeed_ok {drv : Driver} {sd : SiteData}
    (h : scrape_indeed drv = .ok sd) :
    sd.source_site = "indeed" ∧ sd.job_title ≠ "" ∧ sd.company_name ≠ "" := by
  unfold scrape_indeed at h
  split at h
  · simp at h
  · exact extract_three_chains_ok h

theorem scrape_generic_ok {drv : Driver} {ss : String} {sd : SiteData}
    (h : scrape_generic drv ss = .ok sd) :
    sd.source_site = ss ∧ sd.job_title ≠ "" ∧ sd.company_name ≠ "" := by
  unfold scrape_generic at h
  split at h
  · simp at h
  · split at h
    · simp at h
    · have hsd := Except.ok.inj h
      rw [← hsd]
      exact ⟨rfl, pyOrStr_ne_empty _ _ (by decide),
        show ("Unknown Company" : String) ≠ "" by decide⟩

theorem site_dispatch_ok {drv : Driver} {ss : String} {sd : SiteData}
    (h : site_dispatch drv ss = .ok sd) :
    sd.source_site = ss ∧ sd.job_title ≠ "" ∧ sd.company_name ≠ "" := by
  unfold site_dispatch at h
  by_cases h1 : ss = "linkedin"
  · rw [if_pos h1] at h
    obtain ⟨hs, ht, hc⟩ := scrape_linkedin_ok h
    exact ⟨by rw [hs, h1], ht, hc⟩
  · rw [if_neg h1] at h
    by_cases h2 : ss = "glassdoor"
    · rw [if_pos h2] at h
      obtain ⟨hs, ht, hc⟩ := scrape_glassdoor_ok h
      exact ⟨by rw [hs, h2], ht, hc⟩
    · rw [if_neg h2] at h
      by_cases h3 : ss = "indeed"
      · rw [if_pos h3] at h
        obtain ⟨hs, ht, hc⟩ := scrape_indeed_ok h
        exact ⟨by rw [hs, h3], ht, hc⟩
      · rw [if_neg h3] at h
        exact scrape_generic_ok h

theorem scrape_error_result_fields (ss m : String) :
    (scrape_error_result ss m).source_site = ss ∧
    (scrape_error_result ss m).job_title ≠ "" ∧
    (scrape_error_result ss m).company_name ≠ "" ∧
    (scrape_error_result ss m).extraction_method = none :=
  ⟨rfl, show ("Unknown Position" : String) ≠ "" by decide,
    show ("Unknown Company" : String) ≠ "" by decide, rfl⟩

theorem tier2_body_fields (env : ScrapeEnv) (drv : Driver) (ss : String) :
    (tier2_body env drv ss).source_site = ss ∧
    (tier2_body env drv ss).job_title ≠ "" ∧
    (tier2_body env drv ss).company_name ≠ "" ∧
    (tier2_body env drv ss).extraction_method = none := by
  unfold tier2_body
  cases hd : site_dispatch drv ss with
  | error m => exact scrape_error_result_fields ss m
  | ok jd =>
    obtain ⟨hs, ht, hc⟩ := site_dispatch_ok hd
    exact ⟨hs, ht, hc, rfl⟩

theorem tier2_run_fields (env : ScrapeEnv) (ss : String) :
    (tier2_run env ss).1.source_site = ss ∧
    (tier2_run env ss).1.job_title ≠ "" ∧
    (tier2_run env ss).1.company_name ≠ "" ∧
    (tier2_run env ss).1.extraction_method = none := by
  unfold tier2_run
  cases env.acquire with
  | error m => exact scrape_error_result_fields ss m
  | ok drv =>
    cases env.quit with
    | ok u => exact tier2_body_fields env drv ss
    | error e => exact tier2_body_fields env drv ss

theorem tier1_result_fields {env : ScrapeEnv} {ss : String} {r : ScrapeResult}
    (h : tier1_result env ss = some r) :
    r.source_site = ss ∧ r.job_title ≠ "" ∧ r.company_name ≠ "" ∧
    r.extraction_method = some "requests" ∧
    r.job_description.length ≤ 2000 := by
  unfold tier1_result at h
  split at h
  · simp at h
  · rename_i rr heq
    split at h
    · have hr := Option.some.inj h
      obtain ⟨ht, hc, hm, hd⟩ := try_requests_scraping_fields heq
      rw [← hr]
      exact ⟨rfl, ht, hc, by rw [hm], hd⟩
    · simp at h

theorem tier2_body_of_error {env : ScrapeEnv} {drv : Driver} {ss m : String}
    (h : site_dispatch drv ss = .error m) :
    tier2_body env drv ss = scrape_error_result ss m := by
  unfold tier2_body
  rw [h]

theorem tier2_run_quits {env : ScrapeEnv} {ss : String} {drv : Driver}
    (h : env.acquire = .ok drv) :
    (tier2_run env ss).2 = 1 ∧ (tier2_run env ss).1 = tier2_body env drv ss := by
  unfold tier2_run
  rw [h]
  cases env.quit with
  | ok u => exact ⟨rfl, rfl⟩
  | error e => exact ⟨rfl, rfl⟩

theorem scrape_job_of_tier1_none {env : ScrapeEnv} {url : Url}
    (h : tier1_result env (scraper_determine_source_site url) = none) :
    scrape_job env url = tier2_run env (scraper_determine_source_site url) := by
  show (match tier1_result env (scraper_determine_source_site url) with
    | some r => (r, 0)
    | none => tier2_run env (scraper_determine_source_site url)) =
      tier2_run env (scraper_determine_source_site url)
  rw [h]

theorem scrape_job_of_tier1_some {env : ScrapeEnv} {url : Url} {r : ScrapeResult}
    (h : tier1_result env (scraper_determine_source_site url) = some r) :
    scrape_job env url = (r, 0) := by
  show (match tier1_result env (scraper_determine_source_site url) with
    | some r => (r, 0)
    | none => tier2_run env (scraper_determine_source_site url)) = (r, 0)
  rw [h]

theorem tier2_run_of_acquire_error {env : ScrapeEnv} {ss me : String}
    (h : env.acquire = .error me) :
    tier2_run env ss = (scrape_error_result ss me, 0) := by
  unfold tier2_run
  rw [h]

/-- C1: for every URL (and every environment of effect outcomes), the
orchestrator scrape_job returns normally with a non-absent source_site
classified from the URL and non-empty job_title and company_name strings,
and whenever an unhandled failure reaches the outer except of the browser
tier, the result carries the two placeholder fields, a job_description
embedding the failure detail, the classified source_site, and an absent
snapshot reference. -/
theorem claim_extract_never_raises_placeholder_failure (env : ScrapeEnv) (url : Url) :
    ((scrape_job env url).1.source_site = scraper_determine_source_site url ∧
     (scrape_job env url).1.job_title ≠ "" ∧
     (scrape_job env url).1.company_name ≠ "") ∧
    (∀ m, tier1_result env (scraper_determine_source_site url) = none →
      browser_failure env (scraper_determine_source_site url) = some m →
      (scrape_job env url).1 =
        { company_name := "Unknown Company", job_title := "Unknown Position",
          job_description := "Error occurred while scraping: " ++ m,
          source_site := scraper_determine_source_site url,
          html_snapshot_path := none, extraction_method := none }) := by
  constructor
  · cases h1 : tier1_result env (scraper_determine_source_site url) with
    | some r =>
      rw [scrape_job_of_tier1_some h1]
      obtain ⟨hs, ht, hc, _, _⟩ := tier1_result_fields h1
      exact ⟨hs, ht, hc⟩
    | none =>
      rw [scrape_job_of_tier1_none h1]
      obtain ⟨hs, ht, hc, _⟩ := tier2_run_fields env (scraper_determine_source_site url)
      exact ⟨hs, ht, hc⟩
  · intro m h1 h2
    rw [scrape_job_of_tier1_none h1]
    unfold browser_failure at h2
    cases ha : env.acquire with
    | error me =>
      rw [ha] at h2
      have h2b : some me = some m := h2
      have hme := Option.some.inj h2b
      rw [tier2_run_of_acquire_error ha, ← hme]
      rfl
    | ok drv =>
      rw [ha] at h2
      have h2b : (match site_dispatch drv (scraper_determine_source_site url) with
        | Except.error me => some me
        | Except.ok _ => none) = some m := h2
      cases hd : site_dispatch drv (scraper_determine_source_site url) with
      | error me =>
        rw [hd] at h2b
        have h2c : some me = some m := h2b
        have hme := Option.some.inj h2c
        rw [(tier2_run_quits ha).2, tier2_body_of_error hd, ← hme]
        rfl
      | ok jd =>
        rw [hd] at h2b
        have h2c : (none : Option String) = some m := h2b
        simp at h2c

/-- C1 witness: under a concrete environment where Tier 1 yields nothing
and navigation in the browser tier raises, the result is exactly the
placeholder record with the failure detail embedded. -/
theorem claim_extract_never_raises_placeholder_failure_witness :
    (scrape_job envTier2Err urlLinkedin).1.job_title ≠ "" ∧
    (scrape_job envTier2Err urlLinkedin).1 =
      { company_name := "Unknown Company", job_title := "Unknown Position",
        job_description := "Error occurred while scraping: net::ERR_TIMED_OUT",
        source_site := "linkedin", html_snapshot_path := none,
        extraction_method := none } :=
  ⟨(claim_extract_never_raises_placeholder_failure envTier2Err urlLinkedin).1.2.1,
   (claim_extract_never_raises_placeholder_failure envTier2Err urlLinkedin).2
     "net::ERR_TIMED_OUT" rfl rfl⟩

/-- C2: for every call that reaches the browser tier (Tier 1 yielded
nothing) and successfully acquires a driver, driver.quit is invoked exactly
once, whatever the extractor and snapshot oracles do, and a failure inside
driver.quit itself is swallowed: it does not change the returned result. -/
theorem claim_browser_release_exactly_once (env : ScrapeEnv) (url : Url) (d : Driver)
    (h1 : tier1_result env (scraper_determine_source_site url) = none)
    (h2 : env.acquire = .ok d) :
    (scrape_job env url).2 = 1 ∧
    ∀ q, (scrape_job { env with quit := q } url).1 = (scrape_job env url).1 := by
  constructor
  · rw [scrape_job_of_tier1_none h1]
    exact (tier2_run_quits h2).1
  · intro q
    have h1q : tier1_result { env with quit := q } (scraper_determine_source_site url) = none := h1
    have h2q : ScrapeEnv.acquire { env with quit := q } = .ok d := h2
    rw [scrape_job_of_tier1_none h1, scrape_job_of_tier1_none h1q]
    rw [(tier2_run_quits h2).2, (tier2_run_quits h2q).2]
    rfl

/-- C2 witness: in a concrete run whose site extractor raises and whose
driver.quit itself raises, the quit count is still one and replacing the
quit outcome does not change the result. -/
theorem claim_browser_release_exactly_once_witness :
    (scrape_job envTier2Err urlLinkedin).2 = 1 ∧
    (scrape_job { envTier2Err with quit := Except.ok () } urlLinkedin).1 =
      (scrape_job envTier2Err urlLinkedin).1 :=
  ⟨(claim_browser_release_exactly_once envTier2Err urlLinkedin drvNavBoom rfl rfl).1,
   (claim_browser_release_exactly_once envTier2Err urlLinkedin drvNavBoom rfl rfl).2
     (Except.ok ())⟩

theorem parse_job_url_dispatch_error {env : ParseEnv} {url : Url} {m : String}
    (h : parse_dispatch url = .error m) :
    parse_job_url env url =
      { job_url := url.raw, source_site := "unknown", job_id := none,
        company_name := none, job_title := none, location := none,
        suggested_titles := common_job_titles.take 10, description_preview := none,
        error := some m } := by
  unfold parse_job_url
  rw [h]

theorem parse_indeed_url_search_error {url : Url} {v : String}
    (hjk : getParam url.query "jk" = none)
    (hvjk : getParam url.query "vjk" = none)
    (hq : getParam url.query "q" = some v) :
    parse_indeed_url url = .error indeedSearchMessage := by
  have hqq : strContains url.query "q=" = true := getParam_some_contains hq
  unfold parse_indeed_url
  rw [hjk, hvjk, hqq]
  rfl

/-- C3 counterexample: the host indeed.org contains "indeed", its query
carries a q parameter and neither jk nor vjk, yet the heuristic parse
returns a normal result whose error field is absent — the dispatch table
keys on the substring indeed.com, so this URL never reaches the Indeed
branch and no search-results error is produced. -/
theorem claim_indeed_search_host_counterexample :
    strContains (stripWWW (strToLower urlIndeedOrg.netloc)) "indeed" = true ∧
    getParam urlIndeedOrg.query "q" = some "engineer" ∧
    getParam urlIndeedOrg.query "jk" = none ∧
    getParam urlIndeedOrg.query "vjk" = none ∧
    (parse_job_url metaFailEnv urlIndeedOrg).error = none := by
  refine ⟨by decide, by decide, by decide, by decide, ?_⟩
  decide

/-- C3 amended: for every URL whose normalized host contains the dispatch
substring "indeed.com" (not merely "indeed") and does not contain
"linkedin.com" (checked first in the dispatch table), whose query carries a
q parameter and neither a jk nor a vjk parameter, parse_job_url returns the
distinguished search-results error in its error field. -/
theorem claim_indeed_search_error_amended (env : ParseEnv) (url : Url) (v : String)
    (hlink : strContains (stripWWW (strToLower url.netloc)) "linkedin.com" = false)
    (hind : strContains (stripWWW (strToLower url.netloc)) "indeed.com" = true)
    (hjk : getParam url.query "jk" = none)
    (hvjk : getParam url.query "vjk" = none)
    (hq : getParam url.query "q" = some v) :
    (parse_job_url env url).error = some indeedSearchMessage := by
  have hindeed := parse_indeed_url_search_error hjk hvjk hq
  have hdisp : parse_dispatch url = .error indeedSearchMessage := by
    unfold parse_dispatch
    rw [hlink, hind, hindeed]
    rfl
  rw [parse_job_url_dispatch_error hdisp]

/-- C3 witness: the amended theorem applied to a concrete Indeed
search-results URL. -/
theorem claim_indeed_search_error_amended_witness :
    (parse_job_url metaFailEnv urlIndeedSearch).error = some indeedSearchMessage :=
  claim_indeed_search_error_amended metaFailEnv urlIndeedSearch "engineer"
    (by decide) (by decide) (by decide) (by decide) (by decide)

/-- C4 counterexample: on the host example.com the scraper classifier
returns unknown while the heuristic-parser classifier returns other, so
the two classifier functions are not extensionally equal. -/
theorem claim_classifier_equivalence_counterexample :
    scraper_determine_source_site urlExample = "unknown" ∧
    parser_determine_source_site (stripWWW (strToLower urlExample.netloc)) = "other" ∧
    scraper_determine_source_site urlExample ≠
      parser_determine_source_site (stripWWW (strToLower urlExample.netloc)) :=
  ⟨by decide, by decide, by decide⟩

/-- C4 amended: the two classifiers agree on every domain that contains
exactly one of the three substrings linkedin, indeed, glassdoor; in
general they differ, since the scraper classifier returns unknown for
everything else while the parser classifier also recognizes google and
ziprecruiter and returns other for everything else. -/
theorem claim_classifier_agreement_amended (d : String)
    (h : (strContains d "linkedin" = true ∧ strContains d "indeed" = false ∧
            strContains d "glassdoor" = false) ∨
         (strContains d "linkedin" = false ∧ strContains d "indeed" = true ∧
            strContains d "glassdoor" = false) ∨
         (strContains d "linkedin" = false ∧ strContains d "indeed" = false ∧
            strContains d "glassdoor" = true)) :
    scraper_classify_domain d = parser_determine_source_site d := by
  unfold scraper_classify_domain parser_determine_source_site
  rcases h with ⟨h1, h2, h3⟩ | ⟨h1, h2, h3⟩ | ⟨h1, h2, h3⟩ <;> rw [h1, h2, h3] <;> rfl

/-- C4 witness: agreement on a concrete host containing only linkedin. -/
theorem claim_classifier_agreement_amended_witness :
    scraper_classify_domain "linkedin.example.com" =
      parser_determine_source_site "linkedin.example.com" :=
  claim_classifier_agreement_amended "linkedin.example.com"
    (Or.inl ⟨by decide, by decide, by decide⟩)

theorem tier1_extract_of_success {resp : HttpResponse}
    (hstatus : resp.status = 200)
    (hfound : select_first_nonempty resp.doc tier1_title_selectors ≠ none ∨
              select_first_nonempty resp.doc tier1_company_selectors ≠ none) :
    tier1_extract (some resp) =
      some { company_name :=
               pyOrStr (select_first_nonempty resp.doc tier1_company_selectors)
                 "Unknown Company",
             job_title :=
               pyOrStr (select_first_nonempty resp.doc tier1_title_selectors)
                 "Unknown Position",
             job_description :=
               pyOrStr ((select_first_nonempty resp.doc tier1_desc_selectors).map
                   (fun t => pyTruncate t 2000))
                 "No description available",
             html_content := resp.text,
             extraction_method := "requests" } := by
  have hguard : (decide (select_first_nonempty resp.doc tier1_title_selectors ≠ none) ||
      decide (select_first_nonempty resp.doc tier1_company_selectors ≠ none)) = true := by
    rcases hfound with h | h <;> simp [h]
  simp only [tier1_extract]
  rw [if_pos hstatus]
  rw [if_pos hguard]

/-- C5 counterexample: a run where the Tier-1 lightweight fetch succeeds
(HTTP 200, a title extracted) but the snapshot save raises: the
orchestrator then enters Tier 2 after all (the browser session is acquired
and released once) and the returned result does not carry the lightweight
extraction method. -/
theorem claim_tier1_short_circuit_counterexample :
    try_requests_scraping envTier1SaveFail ≠ none ∧
    (scrape_job envTier1SaveFail urlExample).2 = 1 ∧
    (scrape_job envTier1SaveFail urlExample).1.extraction_method ≠ some "requests" := by
  refine ⟨by decide, by decide, by decide⟩

/-- C5 amended: whenever the Tier-1 fetch succeeds (HTTP 200 and at least
one of title or company extracted) and the snapshot save also succeeds, the
orchestrator persists the snapshot reference, returns at once with the
lightweight (requests) extraction method, and Tier 2 is never entered: no
driver is quit and the result is independent of every browser-tier oracle.
If the save raises, the code instead falls through to Tier 2. -/
theorem claim_tier1_success_short_circuit_amended (env : ScrapeEnv) (url : Url)
    (resp : HttpResponse) (p : String)
    (hresp : env.response = some resp)
    (hstatus : resp.status = 200)
    (hfound : select_first_nonempty resp.doc tier1_title_selectors ≠ none ∨
              select_first_nonempty resp.doc tier1_company_selectors ≠ none)
    (hsave : env.save1 = .ok p) :
    (scrape_job env url).1.extraction_method = some "requests" ∧
    (scrape_job env url).1.html_snapshot_path = some p ∧
    (scrape_job env url).2 = 0 ∧
    (∀ a s2 q, scrape_job { env with acquire := a, save2 := s2, quit := q } url =
      scrape_job env url) := by
  have hreq : try_requests_scraping env = tier1_extract (some resp) := by
    unfold try_requests_scraping
    rw [hresp]
  rw [tier1_extract_of_success hstatus hfound] at hreq
  have ht1 : tier1_result env (scraper_determine_source_site url) =
      some { company_name :=
               pyOrStr (select_first_nonempty resp.doc tier1_company_selectors)
                 "Unknown Company",
             job_title :=
               pyOrStr (select_first_nonempty resp.doc tier1_title_selectors)
                 "Unknown Position",
             job_description :=
               pyOrStr ((select_first_nonempty resp.doc tier1_desc_selectors).map
                   (fun t => pyTruncate t 2000))
                 "No description available",
             source_site := scraper_determine_source_site url,
             html_snapshot_path := some p,
             extraction_method := some "requests" } := by
    unfold tier1_result
    rw [hreq, hsave]
  have ht1q : ∀ a s2 q, tier1_result { env with acquire := a, save2 := s2, quit := q }
      (scraper_determine_source_site url) =
      tier1_result env (scraper_determine_source_site url) := fun a s2 q => rfl
  refine ⟨?_, ?_, ?_, ?_⟩
  · rw [scrape_job_of_tier1_some ht1]
  · rw [scrape_job_of_tier1_some ht1]
  · rw [scrape_job_of_tier1_some ht1]
  · intro a s2 q
    rw [scrape_job_of_tier1_some ht1,
        scrape_job_of_tier1_some (Eq.trans (ht1q a s2 q) ht1)]

/-- C5 witness: the amended theorem at a concrete successful Tier-1 run. -/
theorem claim_tier1_success_short_circuit_amended_witness :
    (scrape_job envTier1Ok urlExample).1.extraction_method = some "requests" ∧
    (scrape_job envTier1Ok urlExample).1.html_snapshot_path =
      some "../snapshots/a.html" ∧
    (scrape_job envTier1Ok urlExample).2 = 0 :=
  ⟨(claim_tier1_success_short_circuit_amended envTier1Ok urlExample respTitle
      "../snapshots/a.html" rfl rfl (Or.inl (by decide)) rfl).1,
   (claim_tier1_success_short_circuit_amended envTier1Ok urlExample respTitle
      "../snapshots/a.html" rfl rfl (Or.inl (by decide)) rfl).2.1,
   (claim_tier1_success_short_circuit_amended envTier1Ok urlExample respTitle
      "../snapshots/a.html" rfl rfl (Or.inl (by decide)) rfl).2.2.1⟩

theorem scrape_linkedin_all_skip {drv : Driver} (hnav : drv.nav = .ok ())
    (hall : ∀ s, chain_skips drv.lookup s) :
    scrape_linkedin drv =
      .ok { company_name := "Unknown Company", job_title := "Unknown Position",
            job_description := "No description available", source_site := "linkedin" } := by
  have h1 := @find_element_ok_of_skips drv.lookup linkedin_company_selectors
    (fun s _ => hall s)
  have h2 := @find_element_ok_of_skips drv.lookup linkedin_title_selectors
    (fun s _ => hall s)
  have h3 := @find_element_ok_of_skips drv.lookup linkedin_desc_selectors
    (fun s _ => hall s)
  unfold scrape_linkedin
  rw [hnav]
  unfold extract_three_chains
  rw [h1, h2, h3]
  rfl

/-- C6: the selector-chain matcher evaluates selectors left to right and
returns the stripped text of the first selector yielding non-empty text,
never evaluating the remaining selectors (the instrumented trace stops at
the match); when every selector is skipped (lookup miss or empty text) it
returns the absent value; the trace agrees with the uninstrumented matcher;
and a caller (the LinkedIn extractor) replaces the absent value with the
fixed placeholder strings. -/
theorem claim_selector_chain_short_circuit :
    (∀ (lookup : String → LookupResult) (pre : List String) (a : String)
        (post : List String) (raw : String),
      (∀ s ∈ pre, chain_skips lookup s) → lookup a = .found raw → pyStrip raw ≠ "" →
      find_trace lookup (pre ++ a :: post) = (.ok (some (pyStrip raw)), pre ++ [ a ])) ∧
    (∀ (lookup : String → LookupResult) (chain : List String),
      (∀ s ∈ chain, chain_skips lookup s) →
      find_element_with_fallbacks lookup chain = .ok none) ∧
    (∀ (lookup : String → LookupResult) (chain : List String),
      (find_trace lookup chain).1 = find_element_with_fallbacks lookup chain) ∧
    (∀ drv : Driver, drv.nav = .ok () → (∀ s, chain_skips drv.lookup s) →
      scrape_linkedin drv =
        .ok { company_name := "Unknown Company", job_title := "Unknown Position",
              job_description := "No description available",
              source_site := "linkedin" }) :=
  ⟨find_trace_first_match,
   fun _ _ h => find_element_ok_of_skips h,
   find_trace_fst,
   fun _ hnav hall => scrape_linkedin_all_skip hnav hall⟩

/-- C6 witness: on the chain a, b, c where a misses and b finds padded
text, the trace returns the stripped text of b and evaluates exactly a and
b, never c. -/
theorem claim_selector_chain_short_circuit_witness :
    find_trace lookupShortCircuit [ "a", "b", "c" ] =
      (.ok (some "T"), [ "a", "b" ]) :=
  claim_selector_chain_short_circuit.1 lookupShortCircuit [ "a" ] "b" [ "c" ] " T "
    (by
      intro s hs
      rw [List.mem_singleton] at hs
      subst hs
      exact Or.inl rfl)
    rfl (by decide)

theorem applyUpdate_preserves (r : ParseResult) (u : FieldUpdate) :
    (applyUpdate r u).job_url = r.job_url ∧
    (applyUpdate r u).suggested_titles = r.suggested_titles ∧
    (applyUpdate r u).error = r.error :=
  ⟨rfl, rfl, rfl⟩

theorem parse_with_meta_preserves (env : ParseEnv) (r : ParseResult) :
    (parse_with_meta env r).job_url = r.job_url ∧
    (parse_with_meta env r).suggested_titles = r.suggested_titles ∧
    (parse_with_meta env r).error = r.error := by
  unfold parse_with_meta
  split
  · split
    · exact ⟨rfl, rfl, rfl⟩
    · exact ⟨rfl, rfl, rfl⟩
  · exact ⟨rfl, rfl, rfl⟩

theorem parse_job_url_dispatch_ok {env : ParseEnv} {url : Url} {u : FieldUpdate}
    (h : parse_dispatch url = .ok u) :
    parse_job_url env url = parse_with_meta env (applyUpdate (parse_base url) u) := by
  unfold parse_job_url
  rw [h]

/-- C7: parse_job_url is a total function (the model of a Python function
whose body is wrapped in a catch-all try): on every input and in every
environment the result carries the original job URL and the top-10 title
suggestions; when the dispatched parse raised, the result carries that
failure message in its error field; the metadata fetch on a failing network
yields the empty contribution (none), and such a failure never surfaces as
an error in the overall result. -/
theorem claim_parse_never_raises_best_effort (env : ParseEnv) (url : Url) :
    (parse_job_url env url).job_url = url.raw ∧
    (parse_job_url env url).suggested_titles = common_job_titles.take 10 ∧
    (∀ m, parse_dispatch url = .error m → (parse_job_url env url).error = some m) ∧
    (∀ e, get_page_metadata { meta := Except.error e } = none) ∧
    (∀ e u, parse_dispatch url = .ok u →
      (parse_job_url { meta := Except.error e } url).error = none) := by
  refine ⟨?_, ?_, ?_, ?_, ?_⟩
  · cases hd : parse_dispatch url with
    | error m => rw [parse_job_url_dispatch_error hd]
    | ok u =>
      rw [parse_job_url_dispatch_ok hd]
      rw [(parse_with_meta_preserves env (applyUpdate (parse_base url) u)).1]
      rfl
  · cases hd : parse_dispatch url with
    | error m => rw [parse_job_url_dispatch_error hd]
    | ok u =>
      rw [parse_job_url_dispatch_ok hd]
      rw [(parse_with_meta_preserves env (applyUpdate (parse_base url) u)).2.1]
      rfl
  · intro m hd
    rw [parse_job_url_dispatch_error hd]
  · intro e
    rfl
  · intro e u hd
    rw [parse_job_url_dispatch_ok hd]
    rw [(parse_with_meta_preserves { meta := Except.error e }
      (applyUpdate (parse_base url) u)).2.2]
    rfl

/-- C7 witness: the theorem applied to a concrete unrecognized-host URL
under a failing metadata fetch: the result still carries the URL and the
suggestions, the metadata contribution is empty, and no error is set. -/
theorem claim_parse_never_raises_best_effort_witness :
    (parse_job_url metaFailEnv urlExample).job_url = "https://example.com/" ∧
    get_page_metadata { meta := Except.error "connection timed out" } = none ∧
    (parse_job_url { meta := Except.error "connection timed out" } urlExample).error =
      none :=
  ⟨(claim_parse_never_raises_best_effort metaFailEnv urlExample).1,
   (claim_parse_never_raises_best_effort metaFailEnv urlExample).2.2.2.1
     "connection timed out",
   (claim_parse_never_raises_best_effort metaFailEnv urlExample).2.2.2.2
     "connection timed out" {} rfl⟩

/-- C8 counterexample: a run whose Tier 1 yields nothing and whose browser
tier completes normally returns a result with no extraction_method field at
all — the browser-tier dictionaries never set it, so it is not populated
from a two-value enumeration on every outcome. -/
theorem claim_extraction_method_counterexample :
    (scrape_job envTier2Ok urlLinkedin).1.extraction_method = none := by
  decide

/-- C8 amended: only the Tier-1 (lightweight) result carries an
extraction_method field, always with the value "requests"; every
browser-tier result, successful or failed, carries no extraction_method
field. -/
theorem claim_extraction_method_amended (env : ScrapeEnv) (url : Url) :
    (∀ r, tier1_result env (scraper_determine_source_site url) = some r →
      r.extraction_method = some "requests") ∧
    (tier1_result env (scraper_determine_source_site url) = none →
      (scrape_job env url).1.extraction_method = none) := by
  constructor
  · intro r h
    exact (tier1_result_fields h).2.2.2.1
  · intro h
    rw [scrape_job_of_tier1_none h]
    exact (tier2_run_fields env (scraper_determine_source_site url)).2.2.2

/-- C8 witness: the amended theorem at a concrete Tier-1 success and a
concrete browser-tier run. -/
theorem claim_extraction_method_amended_witness :
    tier1ExampleResult.extraction_method = some "requests" ∧
    (scrape_job envTier2Err urlLinkedin).1.extraction_method = none :=
  ⟨(claim_extraction_method_amended envTier1Ok urlExample).1 tier1ExampleResult
     (by decide),
   (claim_extraction_method_amended envTier2Err urlLinkedin).2 rfl⟩

/-- C9: whenever the heuristic parse hits its internal exception handler
(in this model, exactly when the dispatched per-site parse raised, which
only the Indeed search-results condition does), the result reports
source_site unknown rather than the host classification, absent job_id,
company_name, job_title and location, the top-10 title suggestions, and the
failure message in its error field. -/
theorem claim_parse_handler_degraded_result (env : ParseEnv) (url : Url) (m : String)
    (h : parse_dispatch url = .error m) :
    parse_job_url env url =
      { job_url := url.raw, source_site := "unknown", job_id := none,
        company_name := none, job_title := none, location := none,
        suggested_titles := common_job_titles.take 10, description_preview := none,
        error := some m } :=
  parse_job_url_dispatch_error h

/-- C9 witness: the degraded result on a concrete Indeed search-results
URL whose host would otherwise classify as indeed. -/
theorem claim_parse_handler_degraded_result_witness :
    parse_job_url metaFailEnv urlIndeedSearch =
      { job_url := "https://ca.indeed.com/jobs?q=engineer&l=Toronto",
        source_site := "unknown", job_id := none, company_name := none,
        job_title := none, location := none,
        suggested_titles := common_job_titles.take 10, description_preview := none,
        error := some indeedSearchMessage } :=
  claim_parse_handler_degraded_result metaFailEnv urlIndeedSearch
    indeedSearchMessage rfl

theorem find_element_const_found {s : String} (hne : s ≠ "") (hstrip : pyStrip s = s)
    (c : String) (rest : List String) :
    find_element_with_fallbacks (fun _ => LookupResult.found s) (c :: rest) =
      .ok (some s) := by
  unfold find_element_with_fallbacks
  simp [hstrip, hne]

/-- C10: every result the Tier-1 branch returns has a job_description of at
most 2000 characters (in particular when the description chain matched, the
matched text is truncated to its first 2000 characters), while the
browser-tier extractors apply no such bound: the LinkedIn extractor returns
the found description text unchanged, whatever its length. -/
theorem claim_tier1_description_truncated :
    (∀ (env : ScrapeEnv) (resp : HttpResponse) (ss : String) (r : ScrapeResult)
        (t : String),
      env.response = some resp →
      tier1_result env ss = some r →
      select_first_nonempty resp.doc tier1_desc_selectors = some t →
      r.job_description.length ≤ 2000) ∧
    (∀ s : String, s ≠ "" → pyStrip s = s →
      scrape_linkedin (drvConstFound s) =
        .ok { company_name := s, job_title := s, job_description := s,
              source_site := "linkedin" }) := by
  constructor
  · intro env resp ss r t _ h _
    exact (tier1_result_fields h).2.2.2.2
  · intro s hne hstrip
    have hfind := find_element_const_found hne hstrip
    simp [drvConstFound, scrape_linkedin, extract_three_chains,
      linkedin_company_selectors, linkedin_title_selectors,
      linkedin_desc_selectors, hfind, pyOrStr, hne]

/-- C10 witness: a concrete Tier-1 result with a found description is
within the bound, and the LinkedIn extractor passes a concrete description
through unchanged. -/
theorem claim_tier1_description_truncated_witness :
    tier1DescResult.job_description.length ≤ 2000 ∧
    scrape_linkedin (drvConstFound "abc") =
      .ok { company_name := "abc", job_title := "abc", job_description := "abc",
            source_site := "linkedin" } :=
  ⟨claim_tier1_description_truncated.1 envDesc respDesc "unknown" tier1DescResult
     "worddesc" rfl (by decide) (by decide),
   claim_tier1_description_truncated.2 "abc" (by decide) (by decide)⟩
